import Mathlib

/-!
Verification of the Organization reconciliation engine of
svchaudharialliazn/swap-provider-mongodb.

Shallow embedding of `internal/controller/organization/organization.go`
(the `external` client's Observe / Create / Update / Delete and
`finalSecretName`) and of the error classification performed by
`makeRequest` in the mongodb client package
(`internal/clients/atlas/organization.go`).

Remote systems (the MongoDB Atlas Organization API and AWS Secrets
Manager) are modelled by oracles: records holding the result each remote
call would return.  Every operation returns, besides its Go return
values, the updated custom resource and the ordered list of remote calls
it issued, so that properties such as "no remote delete call is issued"
are statable.  Logging and condition-setting (`SetConditions`) are
observational only and are not modelled; neither is the cancellable
context (the engine never retries internally).
-/

namespace SwapProvider

/-- Constant `secretPrefix` from organization.go. -/
def secretPrefix : String := "product/mongodb/"

/-- Constant `FinalizerOrganizationCleanup` from organization.go. -/
def finalizerOrganizationCleanup : String := "organization.platform.allianz.io/cleanup"

/-- Constant `errDeleteExternal` from organization.go. -/
def errDeleteExternal : String := "cannot delete external organization"

/-- `AWSSecretsManagerReference` from the v1alpha1 API types: optional
explicit secret name and optional KMS key id. -/
structure AWSSecretsConfig where
  secretName : Option String
  kmsKeyID : Option String
deriving DecidableEq, Repr

/-- The desired-spec fields of `OrganizationParameters` consumed by the
controller: API key descriptor, owner id, and the AWS secrets config. -/
structure OrganizationSpec where
  apiKeyDescription : String
  apiKeyRoles : List String
  ownerID : String
  awsSecretsConfig : AWSSecretsConfig
deriving DecidableEq, Repr

/-- The Organization custom resource as the controller sees it:
Kubernetes object name, crossplane external-name annotation (empty
string means unset), finalizer list, deletion timestamp presence, the
desired spec, and the AtProvider status fields the controller writes. -/
structure Organization where
  name : String
  externalName : String
  finalizers : List String
  deletionTimestamp : Bool
  spec : OrganizationSpec
  statusOrgID : String
  statusOrgName : String
  statusSecretName : String
  statusSecretARN : String
deriving DecidableEq, Repr

/-- `meta.FinalizerExists`: whether the given finalizer is recorded. -/
def finalizerPresent (cr : Organization) (f : String) : Bool :=
  cr.finalizers.contains f

/-- `meta.AddFinalizer`: append the finalizer unless already present. -/
def addFinalizer (cr : Organization) (f : String) : Organization :=
  if cr.finalizers.contains f then cr
  else { cr with finalizers := cr.finalizers ++ [f] }

/-- `meta.RemoveFinalizer`: drop every occurrence of the finalizer. -/
def removeFinalizer (cr : Organization) (f : String) : Organization :=
  { cr with finalizers := cr.finalizers.filter (fun x => x ≠ f) }

/-- One remote call issued by the engine against either backend.
Arguments record the identifying parameters of the Go call. -/
inductive RemoteCall
  | atlasCreateOrg (name ownerID : String)
  | atlasGetOrg (orgID : String)
  | atlasDeleteOrg (orgID : String)
  | awsPutSecret (secretName : String)
  | awsDescribeSecret (secretName : String)
  | awsDeleteSecret (secretName : String) (force : Bool)
deriving DecidableEq, Repr

/-- `finalSecretName` from organization.go: explicit non-empty
`AWSSecretsConfig.SecretName` is used verbatim after the fixed prefix,
otherwise the Kubernetes object name is used after the prefix. -/
def finalSecretName (cr : Organization) : String :=
  match cr.spec.awsSecretsConfig.secretName with
  | some s => if s ≠ "" then secretPrefix ++ s else secretPrefix ++ cr.name
  | none => secretPrefix ++ cr.name

/-! ## Observe -/

/-- Result of `awsClient.DescribeSecret`: the secret's ARN when present. -/
structure DescribeSecretOutput where
  arn : Option String
deriving DecidableEq, Repr

/-- Oracle for the remote calls Observe may issue. -/
structure ObserveOracle where
  describeSecret : Except String DescribeSecretOutput
deriving Repr

/-- `managed.ExternalObservation` fields used by this controller. -/
structure Observation where
  resourceExists : Bool
  resourceUpToDate : Bool
deriving DecidableEq, Repr

/-- Return value of Observe together with the updated resource and the
remote calls issued. -/
structure ObserveOutcome where
  obs : Observation
  err : Option String
  cr : Organization
  calls : List RemoteCall
deriving DecidableEq, Repr

/-- `external.Observe` from organization.go: empty external name is the
fast path (`ResourceExists: false`, no remote call); a set deletion
timestamp reports existence immediately; otherwise the only remote call
is a DescribeSecret against the credential store, whose failure is
logged and ignored (`ResourceExists: true, ResourceUpToDate: true`). -/
def observe (cr : Organization) (orc : ObserveOracle) : ObserveOutcome :=
  let orgID := cr.externalName
  if orgID = "" then
    ⟨⟨false, false⟩, none, cr, []⟩
  else
    let cr := { cr with statusOrgID := orgID }
    if cr.deletionTimestamp then
      ⟨⟨true, false⟩, none, cr, []⟩
    else
      let secretName := finalSecretName cr
      match orc.describeSecret with
      | .error _ =>
        ⟨⟨true, true⟩, none, cr, [.awsDescribeSecret secretName]⟩
      | .ok desc =>
        let cr :=
          match desc.arn with
          | some a => { cr with statusSecretName := secretName, statusSecretARN := a }
          | none => cr
        ⟨⟨true, true⟩, none, cr, [.awsDescribeSecret secretName]⟩

/-! ## Create -/

/-- The organization payload returned by `CreateOrganization`. -/
structure CreatedOrg where
  id : String
  orgName : String
deriving DecidableEq, Repr

/-- The API key pair returned by `CreateOrganization`. -/
structure APIKeyPair where
  publicKey : String
  privateKey : String
deriving DecidableEq, Repr

/-- Oracle for the remote calls Create may issue: the result of
`client.CreateOrganization` and of `awsClient.PutSecret` (on success,
the ARN). -/
structure CreateOracle where
  createOrganization : Except String (CreatedOrg × APIKeyPair)
  putSecret : Except String String
deriving Repr

/-- The `ConnectionDetails` map returned on full success. -/
structure ConnectionDetails where
  publicKey : String
  privateKey : String
  secretARN : String
deriving DecidableEq, Repr

/-- Return value of Create together with the updated resource and the
remote calls issued. -/
structure CreateOutcome where
  details : Option ConnectionDetails
  err : Option String
  cr : Organization
  calls : List RemoteCall
deriving DecidableEq, Repr

/-- `external.Create` from organization.go: CreateOrganization, then on
its success set the external name and status, then PutSecret under
`finalSecretName`.  A PutSecret failure is returned wrapped as
`failed to put secret` with no further remote call; on full success the
connection details surface the key pair and ARN. -/
def create (cr : Organization) (orc : CreateOracle) : CreateOutcome :=
  let callCreate := RemoteCall.atlasCreateOrg cr.name cr.spec.ownerID
  match orc.createOrganization with
  | .error e => ⟨none, some e, cr, [callCreate]⟩
  | .ok (org, apiKey) =>
    let cr := { cr with externalName := org.id, statusOrgID := org.id,
                        statusOrgName := org.orgName }
    let secretName := finalSecretName cr
    match orc.putSecret with
    | .error e =>
      ⟨none, some ("failed to put secret: " ++ e), cr,
        [callCreate, .awsPutSecret secretName]⟩
    | .ok arn =>
      let cr := { cr with statusSecretName := secretName, statusSecretARN := arn }
      ⟨some ⟨apiKey.publicKey, apiKey.privateKey, arn⟩, none, cr,
        [callCreate, .awsPutSecret secretName]⟩

/-! ## Update -/

/-- Return value of Update together with the updated resource and the
remote calls issued. -/
structure UpdateOutcome where
  err : Option String
  cr : Organization
  calls : List RemoteCall
deriving DecidableEq, Repr

/-- `external.Update` from organization.go: the body is
`return managed.ExternalUpdate{}, nil` — no remote call, no mutation. -/
def update (cr : Organization) : UpdateOutcome :=
  ⟨none, cr, []⟩

/-! ## Delete -/

/-- Result of `client.DeleteOrganization` as the controller
distinguishes it: success, an error for which `svc.IsNotFoundError`
holds, or any other error. -/
inductive AtlasDeleteResult
  | success
  | notFound (msg : String)
  | failure (msg : String)
deriving DecidableEq, Repr

/-- Oracle for the remote calls Delete may issue.  `deleteSecretOk`
records whether `awsClient.DeleteSecret` would succeed; the controller
only logs its failure. -/
structure DeleteOracle where
  deleteOrganization : AtlasDeleteResult
  deleteSecretOk : Bool
deriving DecidableEq, Repr

/-- Return value of Delete together with the updated resource and the
remote calls issued. -/
structure DeleteOutcome where
  err : Option String
  cr : Organization
  calls : List RemoteCall
deriving DecidableEq, Repr

/-- `external.Delete` from organization.go: empty external name returns
immediately; a missing finalizer is added and the call returns with no
remote call; with the finalizer present, DeleteOrganization is issued —
NotFound and success both proceed to a forced DeleteSecret (failure only
logged) and finalizer removal, any other error is returned wrapped with
the finalizer kept. -/
def deleteOrg (cr : Organization) (orc : DeleteOracle) : DeleteOutcome :=
  let orgID := cr.externalName
  if orgID = "" then
    ⟨none, cr, []⟩
  else if ¬ finalizerPresent cr finalizerOrganizationCleanup then
    ⟨none, addFinalizer cr finalizerOrganizationCleanup, []⟩
  else
    let callDelete := RemoteCall.atlasDeleteOrg orgID
    match orc.deleteOrganization with
    | .notFound _ =>
      let secretName := finalSecretName cr
      ⟨none, removeFinalizer cr finalizerOrganizationCleanup,
        [callDelete, .awsDeleteSecret secretName true]⟩
    | .failure msg =>
      ⟨some (errDeleteExternal ++ ": " ++ msg), cr, [callDelete]⟩
    | .success =>
      let secretName := finalSecretName cr
      ⟨none, removeFinalizer cr finalizerOrganizationCleanup,
        [callDelete, .awsDeleteSecret secretName true]⟩

/-! ## Error classifier -/

/-- An HTTP outcome of a remote call as `makeRequest` distinguishes it:
a transport failure before any response, or a response with a status
code and whether its body unmarshals into the API `Error` struct. -/
inductive HTTPOutcome
  | transportFailure (msg : String)
  | response (status : Nat) (bodyParses : Bool)
deriving DecidableEq, Repr

/-- The semantic error classes `makeRequest` can return: success, the
`NotFoundError` type, the `ConflictError` type, a `RetryableError` with
its message, the bare API `Error` (a non-retryable client error), or a
generic unclassified error built from the status code. -/
inductive ErrClass
  | success
  | notFound
  | conflict
  | retryable (msg : String)
  | apiClientError
  | generic (msg : String)
deriving DecidableEq, Repr

/-- The error classification of `makeRequest` in the mongodb client:
transport failure → retryable network error; status ≥ 400 with an
unparsable body → retryable server error when ≥ 500, otherwise a
generic non-retryable error; with a parsable body, 404 → NotFound,
409 → Conflict, 429 → retryable rate limit, ≥ 500 → retryable server
error, any other 4xx → the bare API error; status < 400 → success. -/
def classifyOutcome (o : HTTPOutcome) : ErrClass :=
  match o with
  | .transportFailure _ => .retryable "HTTP request failed (network error)"
  | .response status bodyParses =>
    if 400 ≤ status then
      if bodyParses = false then
        if 500 ≤ status then .retryable "server error"
        else .generic ("HTTP " ++ toString status)
      else if status = 404 then .notFound
      else if status = 409 then .conflict
      else if status = 429 then .retryable "rate limited"
      else if 500 ≤ status then .retryable "server error"
      else .apiClientError
    else .success

/-- `IsRetryableError` from the mongodb client: only values of the
`RetryableError` type are retryable. -/
def isRetryableError : ErrClass → Bool
  | .retryable _ => true
  | _ => false

/-! ## Sample resource shared by concrete evaluations -/

/-- A concrete Organization resource matching the spec's concrete
scenario: name `acme`, owner `u-1`, API key description `x`, role
`OWNER`, no explicit secret name, not yet created. -/
def sampleCR : Organization :=
  { name := "acme"
    externalName := ""
    finalizers := []
    deletionTimestamp := false
    spec :=
      { apiKeyDescription := "x"
        apiKeyRoles := ["OWNER"]
        ownerID := "u-1"
        awsSecretsConfig := { secretName := none, kmsKeyID := none } }
    statusOrgID := ""
    statusOrgName := ""
    statusSecretName := ""
    statusSecretARN := "" }

/-- The sample resource after creation: external name assigned. -/
def crPostCreate : Organization :=
  { sampleCR with externalName := "org-42" }

/-- The sample resource mid-deletion: external name assigned and the
cleanup finalizer recorded. -/
def crWithFinalizer : Organization :=
  { sampleCR with externalName := "org-42",
                  finalizers := [finalizerOrganizationCleanup] }

/-- The sample resource with a drifted credential description in the
desired spec. -/
def crDrifted : Organization :=
  { sampleCR with externalName := "org-42",
                  spec := { sampleCR.spec with apiKeyDescription := "changed" } }

/-- The sample resource with an explicit credential-store key name. -/
def crExplicitName : Organization :=
  { sampleCR with
      spec := { sampleCR.spec with
                  awsSecretsConfig := { secretName := some "custom", kmsKeyID := none } } }

/-- Delete oracle where the Organization API delete succeeds but the
credential-store delete fails. -/
def orcSecretFail : DeleteOracle :=
  { deleteOrganization := .success, deleteSecretOk := false }

/-- Create oracle where CreateOrganization succeeds (id `org-42`) and
the credential-store Put fails. -/
def orcPutFails : CreateOracle :=
  { createOrganization :=
      .ok ({ id := "org-42", orgName := "acme" }, { publicKey := "pub", privateKey := "priv" })
    putSecret := .error "boom" }

/-- Whether a remote call is a delete of an organization at the
Organization API. -/
def isAtlasDeleteCall : RemoteCall → Bool
  | .atlasDeleteOrg _ => true
  | _ => false

/-- Whether a remote call targets the Organization API at all. -/
def isAtlasCall : RemoteCall → Bool
  | .atlasCreateOrg _ _ => true
  | .atlasGetOrg _ => true
  | .atlasDeleteOrg _ => true
  | _ => false

/-- Whether a DeleteOrganization result confirms the organization is
absent: success, or an error classified NotFound (already deleted). -/
def atlasDeleteConfirmsAbsence : AtlasDeleteResult → Bool
  | .success => true
  | .notFound _ => true
  | .failure _ => false

/-! ## Helper lemmas on finalizer bookkeeping -/

/-- Adding a finalizer makes it present. -/
theorem addFinalizer_present (cr : Organization) (f : String) :
    finalizerPresent (addFinalizer cr f) f = true := by
  unfold addFinalizer finalizerPresent
  split_ifs with h
  · exact h
  · simp

/-- Removing a finalizer makes it absent. -/
theorem removeFinalizer_absent (cr : Organization) (f : String) :
    finalizerPresent (removeFinalizer cr f) f = false := by
  simp [removeFinalizer, finalizerPresent, List.mem_filter]

/-! ## Claim theorems -/

/-- C10: for every Organization whose external identifier is empty,
Delete returns success immediately, without adding a finalizer token
and without issuing any remote call to either backend (the outcome
leaves the resource untouched). -/
theorem delete_empty_externalName_is_noop
    (cr : Organization) (orc : DeleteOracle) (h : cr.externalName = "") :
    deleteOrg cr orc = ⟨none, cr, []⟩ := by
  simp [deleteOrg, h]

/-- C10 witness: evaluated on the sample pre-creation resource. -/
theorem delete_empty_externalName_is_noop_witness :
    sampleCR.externalName = "" ∧
    deleteOrg sampleCR { deleteOrganization := .success, deleteSecretOk := true } =
      ⟨none, sampleCR, []⟩ :=
  ⟨rfl, delete_empty_externalName_is_noop sampleCR _ rfl⟩

/-- C4 counterexample: on an Organization with no finalizer token and an
empty external identifier, Delete returns success and issues no remote
call, but does NOT record the finalizer token — refuting the claim that
every token-less Delete invocation records the token. -/
theorem delete_no_finalizer_token_counterexample :
    finalizerPresent sampleCR finalizerOrganizationCleanup = false
    ∧ (deleteOrg sampleCR { deleteOrganization := .success, deleteSecretOk := true }).err = none
    ∧ (deleteOrg sampleCR { deleteOrganization := .success, deleteSecretOk := true }).calls = []
    ∧ finalizerPresent
        (deleteOrg sampleCR { deleteOrganization := .success, deleteSecretOk := true }).cr
        finalizerOrganizationCleanup = false := by
  decide

/-- C4 amended: for every Organization with a NON-EMPTY external
identifier and no finalizer token, Delete issues no remote call, only
records the token, and returns success (when the identifier is empty it
returns success without recording the token, see the counterexample). -/
theorem delete_without_finalizer_only_records_token
    (cr : Organization) (orc : DeleteOracle)
    (hid : cr.externalName ≠ "")
    (hfin : finalizerPresent cr finalizerOrganizationCleanup = false) :
    deleteOrg cr orc = ⟨none, addFinalizer cr finalizerOrganizationCleanup, []⟩
    ∧ finalizerPresent (deleteOrg cr orc).cr finalizerOrganizationCleanup = true := by
  have h1 : deleteOrg cr orc = ⟨none, addFinalizer cr finalizerOrganizationCleanup, []⟩ := by
    simp [deleteOrg, hid, hfin]
  exact ⟨h1, by rw [h1]; exact addFinalizer_present cr _⟩

/-- C4 amended witness: evaluated on the sample post-creation resource
with no finalizer recorded. -/
theorem delete_without_finalizer_only_records_token_witness :
    deleteOrg crPostCreate { deleteOrganization := .success, deleteSecretOk := true } =
      ⟨none, addFinalizer crPostCreate finalizerOrganizationCleanup, []⟩
    ∧ finalizerPresent
        (deleteOrg crPostCreate { deleteOrganization := .success, deleteSecretOk := true }).cr
        finalizerOrganizationCleanup = true :=
  delete_without_finalizer_only_records_token crPostCreate _ (by decide) (by decide)

/-- C5: with the finalizer token present and a non-empty external
identifier, a NotFound from the Organization API delete is treated as
success: Delete proceeds to the credential delete (whose outcome is only
logged — the oracle's `deleteSecretOk` is arbitrary here), removes the
finalizer token, and returns no error. -/
theorem delete_notFound_treated_as_success
    (cr : Organization) (orc : DeleteOracle) (m : String)
    (hid : cr.externalName ≠ "")
    (hfin : finalizerPresent cr finalizerOrganizationCleanup = true)
    (hnf : orc.deleteOrganization = AtlasDeleteResult.notFound m) :
    (deleteOrg cr orc).err = none
    ∧ finalizerPresent (deleteOrg cr orc).cr finalizerOrganizationCleanup = false
    ∧ (deleteOrg cr orc).calls =
        [RemoteCall.atlasDeleteOrg cr.externalName,
         RemoteCall.awsDeleteSecret (finalSecretName cr) true] := by
  have h1 : deleteOrg cr orc =
      ⟨none, removeFinalizer cr finalizerOrganizationCleanup,
        [RemoteCall.atlasDeleteOrg cr.externalName,
         RemoteCall.awsDeleteSecret (finalSecretName cr) true]⟩ := by
    simp [deleteOrg, hid, hfin, hnf]
  rw [h1]
  exact ⟨rfl, removeFinalizer_absent cr _, rfl⟩

/-- C5 witness: second Delete pass on the sample resource after the
organization was already removed remotely (NotFound), with a failing
credential delete — still succeeds. -/
theorem delete_notFound_treated_as_success_witness :
    (deleteOrg crWithFinalizer
        { deleteOrganization := .notFound "404", deleteSecretOk := false }).err = none
    ∧ finalizerPresent
        (deleteOrg crWithFinalizer
          { deleteOrganization := .notFound "404", deleteSecretOk := false }).cr
        finalizerOrganizationCleanup = false
    ∧ (deleteOrg crWithFinalizer
        { deleteOrganization := .notFound "404", deleteSecretOk := false }).calls =
        [RemoteCall.atlasDeleteOrg crWithFinalizer.externalName,
         RemoteCall.awsDeleteSecret (finalSecretName crWithFinalizer) true] :=
  delete_notFound_treated_as_success crWithFinalizer _ "404" (by decide) (by decide) rfl

/-- C3 counterexample: with the finalizer present, the Organization API
delete succeeding and the credential-store delete FAILING, Delete still
removes the finalizer token and returns success — so the token is
removed without the credential record being confirmed absent, refuting
the second half of the claimed invariant. -/
theorem delete_finalizer_removed_despite_secret_failure_counterexample :
    orcSecretFail.deleteSecretOk = false
    ∧ (deleteOrg crWithFinalizer orcSecretFail).err = none
    ∧ finalizerPresent (deleteOrg crWithFinalizer orcSecretFail).cr
        finalizerOrganizationCleanup = false
    ∧ RemoteCall.awsDeleteSecret "product/mongodb/acme" true
        ∈ (deleteOrg crWithFinalizer orcSecretFail).calls := by
  decide

/-- C3 amended: the finalizer token is present before any remote call is
issued by Delete, and the token is removed only after the Organization
API confirms the organization absent (delete success or NotFound);
credential deletion is best-effort and its failure does not block token
removal. -/
theorem delete_finalizer_gates_remote_calls
    (cr : Organization) (orc : DeleteOracle) :
    ((deleteOrg cr orc).calls ≠ [] →
        finalizerPresent cr finalizerOrganizationCleanup = true)
    ∧ (finalizerPresent cr finalizerOrganizationCleanup = true →
        finalizerPresent (deleteOrg cr orc).cr finalizerOrganizationCleanup = false →
        atlasDeleteConfirmsAbsence orc.deleteOrganization = true) := by
  by_cases hid : cr.externalName = ""
  · have h1 : deleteOrg cr orc = ⟨none, cr, []⟩ := by simp [deleteOrg, hid]
    refine ⟨fun hc => absurd (by rw [h1]) hc, fun hp hr => ?_⟩
    rw [h1] at hr
    rw [hp] at hr
    cases hr
  · by_cases hfin : finalizerPresent cr finalizerOrganizationCleanup = true
    · refine ⟨fun _ => hfin, fun _ hr => ?_⟩
      cases hd : orc.deleteOrganization with
      | success => rfl
      | notFound m => rfl
      | failure m =>
        have h1 : (deleteOrg cr orc).cr = cr := by simp [deleteOrg, hid, hfin, hd]
        rw [h1, hfin] at hr
        cases hr
    · have hfin' : finalizerPresent cr finalizerOrganizationCleanup = false := by
        cases h : finalizerPresent cr finalizerOrganizationCleanup
        · rfl
        · exact absurd h hfin
      have h1 : deleteOrg cr orc =
          ⟨none, addFinalizer cr finalizerOrganizationCleanup, []⟩ := by
        simp [deleteOrg, hid, hfin']
      refine ⟨fun hc => absurd (by rw [h1]) hc, fun hp _ => absurd hp hfin⟩

/-- C3 amended witness: on the sample mid-deletion resource with a
successful organization delete and failing credential delete, the
finalizer was present before the remote calls and the organization was
confirmed absent. -/
theorem delete_finalizer_gates_remote_calls_witness :
    finalizerPresent crWithFinalizer finalizerOrganizationCleanup = true
    ∧ atlasDeleteConfirmsAbsence orcSecretFail.deleteOrganization = true :=
  ⟨(delete_finalizer_gates_remote_calls crWithFinalizer orcSecretFail).1 (by decide),
   (delete_finalizer_gates_remote_calls crWithFinalizer orcSecretFail).2 (by decide) (by decide)⟩

/-- C1 counterexample: with CreateOrganization succeeding (id `org-42`)
and the credential-store Put failing, Create issues exactly the create
and put calls — no compensating delete of the just-created organization
— and returns the wrapped Put failure, refuting the claimed
compensation. -/
theorem create_put_failure_no_compensation_counterexample :
    (create sampleCR orcPutFails).calls =
      [RemoteCall.atlasCreateOrg "acme" "u-1",
       RemoteCall.awsPutSecret "product/mongodb/acme"]
    ∧ (create sampleCR orcPutFails).err = some "failed to put secret: boom"
    ∧ RemoteCall.atlasDeleteOrg "org-42" ∉ (create sampleCR orcPutFails).calls := by
  decide

/-- C1 amended: whenever CreateOrganization succeeds and the subsequent
credential-store Put fails, Create returns the Put failure wrapped as
`failed to put secret`, surfaces no connection details, and issues NO
compensating delete of the just-created organization (the organization
is left behind). -/
theorem create_put_failure_returns_put_error_without_delete
    (cr : Organization) (orc : CreateOracle)
    (org : CreatedOrg) (key : APIKeyPair) (e : String)
    (hok : orc.createOrganization = .ok (org, key))
    (hput : orc.putSecret = .error e) :
    (create cr orc).err = some ("failed to put secret: " ++ e)
    ∧ (create cr orc).details = none
    ∧ (create cr orc).calls.filter isAtlasDeleteCall = [] := by
  simp [create, hok, hput, isAtlasDeleteCall]

/-- C1 amended witness: evaluated on the sample resource with the
put-failure oracle. -/
theorem create_put_failure_returns_put_error_without_delete_witness :
    (create sampleCR orcPutFails).err = some ("failed to put secret: " ++ "boom")
    ∧ (create sampleCR orcPutFails).details = none
    ∧ (create sampleCR orcPutFails).calls.filter isAtlasDeleteCall = [] :=
  create_put_failure_returns_put_error_without_delete sampleCR orcPutFails
    { id := "org-42", orgName := "acme" } { publicKey := "pub", privateKey := "priv" }
    "boom" rfl rfl

/-- C2 counterexample: on an Organization with non-empty external
identifier, Observe issues only a DescribeSecret against the credential
store — no Get against the Organization API — and reports existence even
though the describe failed, refuting the claim that Observe issues an
organization Get and cleans up orphaned credentials on NotFound. -/
theorem observe_no_org_get_counterexample :
    (observe crPostCreate { describeSecret := .error "gone" }).calls =
      [RemoteCall.awsDescribeSecret "product/mongodb/acme"]
    ∧ (observe crPostCreate { describeSecret := .error "gone" }).obs.resourceExists = true
    ∧ RemoteCall.atlasGetOrg "org-42"
        ∉ (observe crPostCreate { describeSecret := .error "gone" }).calls := by
  decide

/-- C2 amended: for every Organization whose observed external
identifier is non-empty, Observe issues no call at all against the
Organization API, reports exists=true without error, and — when the
deletion timestamp is unset — issues only a DescribeSecret against the
credential store and reports upToDate=true whether or not the describe
succeeds; no orphaned-credential cleanup is ever performed. -/
theorem observe_nonempty_id_never_calls_org_api
    (cr : Organization) (orc : ObserveOracle)
    (hid : cr.externalName ≠ "") :
    (observe cr orc).calls.filter isAtlasCall = []
    ∧ (observe cr orc).obs.resourceExists = true
    ∧ (observe cr orc).err = none
    ∧ (cr.deletionTimestamp = false →
        (observe cr orc).obs.resourceUpToDate = true
        ∧ (observe cr orc).calls = [RemoteCall.awsDescribeSecret (finalSecretName cr)]) := by
  cases hdt : cr.deletionTimestamp
  · cases hde : orc.describeSecret with
    | error e =>
      refine ⟨?_, ?_, ?_, fun _ => ⟨?_, ?_⟩⟩ <;>
        simp [observe, hid, hdt, hde, isAtlasCall, finalSecretName]
    | ok d =>
      cases ha : d.arn with
      | none =>
        refine ⟨?_, ?_, ?_, fun _ => ⟨?_, ?_⟩⟩ <;>
          simp [observe, hid, hdt, hde, ha, isAtlasCall, finalSecretName]
      | some a =>
        refine ⟨?_, ?_, ?_, fun _ => ⟨?_, ?_⟩⟩ <;>
          simp [observe, hid, hdt, hde, ha, isAtlasCall, finalSecretName]
  · refine ⟨?_, ?_, ?_, fun hf => ?_⟩
    · simp [observe, hid, hdt, isAtlasCall]
    · simp [observe, hid, hdt]
    · simp [observe, hid, hdt]
    · exact Bool.noConfusion hf

/-- C2 amended witness: evaluated on the sample post-creation resource
with a failing describe. -/
theorem observe_nonempty_id_never_calls_org_api_witness :
    (observe crPostCreate { describeSecret := .error "gone" }).calls.filter isAtlasCall = []
    ∧ (observe crPostCreate { describeSecret := .error "gone" }).obs.resourceExists = true
    ∧ (observe crPostCreate { describeSecret := .error "gone" }).err = none
    ∧ (crPostCreate.deletionTimestamp = false →
        (observe crPostCreate { describeSecret := .error "gone" }).obs.resourceUpToDate = true
        ∧ (observe crPostCreate { describeSecret := .error "gone" }).calls =
            [RemoteCall.awsDescribeSecret (finalSecretName crPostCreate)]) :=
  observe_nonempty_id_never_calls_org_api crPostCreate _ (by decide)

/-- C7 counterexample: organization observed (non-empty identifier, no
deletion timestamp) while the credential-store Describe fails: Observe
reports exists=true with upToDate=TRUE, refuting the claimed
upToDate=false. -/
theorem observe_missing_secret_uptodate_counterexample :
    (observe crPostCreate { describeSecret := .error "ResourceNotFoundException" }).obs =
      { resourceExists := true, resourceUpToDate := true }
    ∧ (observe crPostCreate { describeSecret := .error "ResourceNotFoundException" }).err =
        none := by
  decide

/-- C7 amended: when the external identifier is non-empty, the deletion
timestamp is unset and the credential-store Describe fails, Observe
returns exists=true with upToDate=true and no error — the missing
credential is ignored (logged only), not reported as drift. -/
theorem observe_describe_failure_reports_uptodate
    (cr : Organization) (orc : ObserveOracle) (e : String)
    (hid : cr.externalName ≠ "")
    (hdt : cr.deletionTimestamp = false)
    (hde : orc.describeSecret = .error e) :
    (observe cr orc).obs = { resourceExists := true, resourceUpToDate := true }
    ∧ (observe cr orc).err = none := by
  constructor <;> simp [observe, hid, hdt, hde]

/-- C7 amended witness: evaluated on the sample post-creation resource
with a failing describe. -/
theorem observe_describe_failure_reports_uptodate_witness :
    (observe crPostCreate { describeSecret := .error "gone" }).obs =
      { resourceExists := true, resourceUpToDate := true }
    ∧ (observe crPostCreate { describeSecret := .error "gone" }).err = none :=
  observe_describe_failure_reports_uptodate crPostCreate _ "gone" (by decide) rfl rfl

/-- C8 counterexample: on a resource whose desired credential
description differs from anything stored, Update performs no remote call
whatsoever (so in particular no fetch-merge-Put against the credential
store), mutates nothing, and returns success — refuting the claimed
remediation. -/
theorem update_noop_counterexample :
    (update crDrifted).calls = []
    ∧ (update crDrifted).err = none
    ∧ (update crDrifted).cr = crDrifted := by
  decide

/-- C8 amended: Update is a structural no-op — for every resource it
returns success with no remote call and no mutation, regardless of any
drift between the desired spec and the stored credential record. -/
theorem update_is_noop (cr : Organization) :
    update cr = ⟨none, cr, []⟩ := rfl

/-- C8 amended witness: evaluated on the sample resource. -/
theorem update_is_noop_witness :
    update sampleCR = ⟨none, sampleCR, []⟩ :=
  update_is_noop sampleCR

/-- C9 counterexample: two post-creation resources carrying the SAME
assigned identifier `org-42` but different declared logical names
receive different secret names — so after creation the name is still
derived from the logical name, never from the assigned identifier,
refuting the claim's post-creation clause. -/
theorem finalSecretName_not_from_assigned_id_counterexample :
    finalSecretName crPostCreate = "product/mongodb/acme"
    ∧ finalSecretName { sampleCR with name := "zeta", externalName := "org-42" } =
        "product/mongodb/zeta"
    ∧ finalSecretName crPostCreate ≠
        finalSecretName { sampleCR with name := "zeta", externalName := "org-42" } := by
  decide

/-- C9 amended: the secret-name resolver is pure and deterministic in
the explicit key name and the declared logical name: an explicit
non-empty key name is used verbatim after the fixed prefix, otherwise
the name is the prefix plus the declared logical name — in every
lifecycle phase (the assigned identifier is never consulted); two
resources agreeing on those two inputs receive the same name. -/
theorem finalSecretName_deterministic_prefixed
    (cr cr2 : Organization) (s : String) :
    (cr.spec.awsSecretsConfig.secretName = some s → s ≠ "" →
        finalSecretName cr = secretPrefix ++ s)
    ∧ (cr.spec.awsSecretsConfig.secretName = none ∨
        cr.spec.awsSecretsConfig.secretName = some "" →
        finalSecretName cr = secretPrefix ++ cr.name)
    ∧ (cr2.spec.awsSecretsConfig.secretName = cr.spec.awsSecretsConfig.secretName →
        cr2.name = cr.name → finalSecretName cr2 = finalSecretName cr) := by
  refine ⟨fun hs hne => ?_, fun hs => ?_, fun h1 h2 => ?_⟩
  · simp [finalSecretName, hs, hne]
  · rcases hs with hs | hs <;> simp [finalSecretName, hs]
  · unfold finalSecretName
    rw [h1, h2]

/-- C9 amended witness: evaluated on the explicit-name sample and the
default sample. -/
theorem finalSecretName_deterministic_prefixed_witness :
    finalSecretName crExplicitName = secretPrefix ++ "custom"
    ∧ finalSecretName sampleCR = secretPrefix ++ sampleCR.name :=
  ⟨(finalSecretName_deterministic_prefixed crExplicitName crExplicitName "custom").1
      rfl (by decide),
   (finalSecretName_deterministic_prefixed sampleCR sampleCR "").2.1 (Or.inl rfl)⟩

/-- C6 counterexample: a 404 response whose body does not parse as an
API error is classified as a generic non-retryable error, not NotFound —
refuting the claim that every 404 outcome maps to NotFound. -/
theorem classify_unparsable_404_counterexample :
    classifyOutcome (HTTPOutcome.response 404 false) = ErrClass.generic "HTTP 404"
    ∧ classifyOutcome (HTTPOutcome.response 404 false) ≠ ErrClass.notFound
    ∧ isRetryableError (classifyOutcome (HTTPOutcome.response 404 false)) = false := by
  decide

/-- Helper: every response with status at least 500 is classified as a
retryable server error, whether or not the body parses. -/
theorem classify_5xx (s : Nat) (b : Bool) (h : 500 ≤ s) :
    classifyOutcome (.response s b) = .retryable "server error" := by
  unfold classifyOutcome
  dsimp only
  split_ifs <;> first | rfl | omega

/-- C6 amended: the classifier maps 404/409/429 to NotFound, Conflict
and RateLimited only when the error body parses as an API error; every
status in 500..599 maps to a retryable server error regardless of body;
any other 4xx maps to the non-retryable client API error when the body
parses and to a generic non-retryable error otherwise; a transport
failure before any response maps to a retryable network error. -/
theorem classifier_behaviour
    (s t : Nat) (m : String)
    (hs1 : 500 ≤ s) (_hs2 : s ≤ 599)
    (ht1 : 400 ≤ t) (ht2 : t < 500)
    (ht404 : t ≠ 404) (ht409 : t ≠ 409) (ht429 : t ≠ 429) :
    classifyOutcome (.response 404 true) = .notFound
    ∧ classifyOutcome (.response 409 true) = .conflict
    ∧ classifyOutcome (.response 429 true) = .retryable "rate limited"
    ∧ isRetryableError (ErrClass.retryable "rate limited") = true
    ∧ classifyOutcome (.response s true) = .retryable "server error"
    ∧ classifyOutcome (.response s false) = .retryable "server error"
    ∧ isRetryableError (ErrClass.retryable "server error") = true
    ∧ classifyOutcome (.response t true) = .apiClientError
    ∧ isRetryableError ErrClass.apiClientError = false
    ∧ classifyOutcome (.response t false) = .generic ("HTTP " ++ toString t)
    ∧ isRetryableError (ErrClass.generic ("HTTP " ++ toString t)) = false
    ∧ classifyOutcome (.transportFailure m) =
        .retryable "HTTP request failed (network error)"
    ∧ isRetryableError (classifyOutcome (.transportFailure m)) = true := by
  have htn : ¬ (500 ≤ t) := by omega
  refine ⟨by decide, by decide, by decide, by decide,
    classify_5xx s true hs1, classify_5xx s false hs1, by decide,
    ?_, by decide, ?_, rfl, rfl, rfl⟩
  · simp [classifyOutcome, ht1, ht404, ht409, ht429, htn]
  · simp [classifyOutcome, ht1, htn]

/-- C6 amended witness: evaluated at status 503 (server error), status
400 (client error) and a concrete transport failure. -/
theorem classifier_behaviour_witness :
    classifyOutcome (.response 404 true) = .notFound
    ∧ classifyOutcome (.response 409 true) = .conflict
    ∧ classifyOutcome (.response 429 true) = .retryable "rate limited"
    ∧ isRetryableError (ErrClass.retryable "rate limited") = true
    ∧ classifyOutcome (.response 503 true) = .retryable "server error"
    ∧ classifyOutcome (.response 503 false) = .retryable "server error"
    ∧ isRetryableError (ErrClass.retryable "server error") = true
    ∧ classifyOutcome (.response 400 true) = .apiClientError
    ∧ isRetryableError ErrClass.apiClientError = false
    ∧ classifyOutcome (.response 400 false) = .generic ("HTTP " ++ toString 400)
    ∧ isRetryableError (ErrClass.generic ("HTTP " ++ toString 400)) = false
    ∧ classifyOutcome (.transportFailure "connection refused") =
        .retryable "HTTP request failed (network error)"
    ∧ isRetryableError (classifyOutcome (.transportFailure "connection refused")) = true :=
  classifier_behaviour 503 400 "connection refused"
    (by decide) (by decide) (by decide) (by decide) (by decide) (by decide) (by decide)

end SwapProvider
